import Mathlib

/-
Shallow embedding of src/answerly_agent.py.

The script is a linear Streamlit program: sidebar inputs (provider choice,
credential, model choice), an API-key validation block that issues one probe
request and classifies exceptions through a chain of except-handlers, an
agent-build block (chat client, pulled prompt, one web-search tool, ReAct
agent, executor), and a task-dispatch block guarded by a truthiness test on
the task string.

We model one run of the script as a pure function from an environment (the
sidebar inputs plus oracles for the two effectful calls: the validation probe
and the executor invocation) to the list of observable events the run emits:
UI messages (info, error banner, code block, success banner, written answer)
and network-bearing actions (probe request, chat-client build, prompt pull,
tool load, agent and executor creation, executor invocation). A st.stop call
truncates the run, which the validation stage reports as a Boolean halt flag.
-/

namespace Answerly

/-- The closed provider set offered by the sidebar selectbox. -/
inductive Provider where
  | openai
  | gemini
deriving DecidableEq, Repr

/-- Exceptions the OpenAI probe can raise, at exactly the granularity the
except-chain of the script distinguishes: AuthenticationError, RateLimitError,
any other OpenAIError, and any other Exception. Each carries its str(e). -/
inductive OpenAIExc where
  | authentication (msg : String)
  | rateLimit (msg : String)
  | openAIError (msg : String)
  | otherExc (msg : String)
deriving DecidableEq, Repr

/-- Exceptions the Gemini probe can raise, at exactly the granularity the
except-chain of the script distinguishes: ResourceExhausted, InvalidArgument,
NotFound, and any other Exception. Each carries its str(e). -/
inductive GeminiExc where
  | resourceExhausted (msg : String)
  | invalidArgument (msg : String)
  | notFound (msg : String)
  | otherExc (msg : String)
deriving DecidableEq, Repr

/-- Observable events of one run: Streamlit UI output and network-bearing
actions, in program order. -/
inductive Event where
  | info (msg : String)
  | errorBanner (msg : String)
  | codeBlock (msg : String)
  | probe (provider : Provider) (model : String) (key : String) (prompt : String)
  | buildLLM (provider : Provider) (model : String) (key : String)
  | pullPrompt (name : String)
  | loadToolsEv (names : List String)
  | createAgentEv
  | createExecutorEv
  | spinner (msg : String)
  | invokeExecutor (task : String)
  | successBanner (msg : String)
  | write (msg : String)
deriving DecidableEq, Repr

/-- One run of the script: the sidebar inputs together with oracles for the
two effectful calls. openaiProbe and geminiProbe model the construction plus
invocation of the throwaway test client on (model, key); executorRun models
agent_executor.invoke on the task, returning the output field on success or
str(e) of the raised exception. -/
structure Env where
  provider : Provider
  openai_key : String
  gemini_key : String
  model_name : String
  openaiProbe : String → String → Except OpenAIExc Unit
  geminiProbe : String → String → Except GeminiExc Unit
  task : String
  executorRun : String → Except String String

/-- The except-handler chain of the OpenAI validation block: the UI events
emitted for each exception class, in source order of the handlers. -/
def openaiHandlers : OpenAIExc → List Event
  | OpenAIExc.authentication _ =>
      [Event.errorBanner "❌ Invalid OpenAI API key."]
  | OpenAIExc.rateLimit m =>
      [Event.errorBanner "🚫 Quota exceeded or rate-limited.", Event.codeBlock m]
  | OpenAIExc.openAIError m =>
      [Event.errorBanner "⚠️ OpenAI error occurred.", Event.codeBlock m]
  | OpenAIExc.otherExc m =>
      [Event.errorBanner "❌ Unknown error.", Event.codeBlock m]

/-- The except-handler chain of the Gemini validation block, in source order
of the handlers. -/
def geminiHandlers : GeminiExc → List Event
  | GeminiExc.resourceExhausted m =>
      [Event.errorBanner "🚫 Gemini quota exceeded.", Event.codeBlock m]
  | GeminiExc.invalidArgument _ =>
      [Event.errorBanner "❌ Invalid Gemini API key or model name."]
  | GeminiExc.notFound _ =>
      [Event.errorBanner "❌ Gemini model not found."]
  | GeminiExc.otherExc m =>
      [Event.errorBanner "❌ Gemini error.", Event.codeBlock m]

/-- The OpenAI branch of the API Key Validation section: empty-key guard,
then one probe with the fixed prompt Hello inside the try, then the handler
chain. Returns the events emitted and whether st.stop was reached. -/
def validateOpenAI (key : String) (model : String)
    (probe : String → String → Except OpenAIExc Unit) : List Event × Bool :=
  if key = "" then
    ([Event.info "Enter your OpenAI API key to continue."], true)
  else
    match probe model key with
    | Except.ok _ => ([Event.probe Provider.openai model key "Hello"], false)
    | Except.error e =>
        (Event.probe Provider.openai model key "Hello" :: openaiHandlers e, true)

/-- The Gemini branch of the API Key Validation section: empty-key guard,
then one probe with the fixed prompt Hello Gemini inside the try, then the
handler chain. Returns the events emitted and whether st.stop was reached. -/
def validateGemini (key : String) (model : String)
    (probe : String → String → Except GeminiExc Unit) : List Event × Bool :=
  if key = "" then
    ([Event.info "Enter your Gemini API key to continue."], true)
  else
    match probe model key with
    | Except.ok _ => ([Event.probe Provider.gemini model key "Hello Gemini"], false)
    | Except.error e =>
        (Event.probe Provider.gemini model key "Hello Gemini" :: geminiHandlers e, true)

/-- The whole API Key Validation section: dispatch on the provider if/else. -/
def validateTrace (env : Env) : List Event × Bool :=
  match env.provider with
  | Provider.openai => validateOpenAI env.openai_key env.model_name env.openaiProbe
  | Provider.gemini => validateGemini env.gemini_key env.model_name env.geminiProbe

/-- The chat-client configuration: provider, model identifier and credential
passed to ChatOpenAI or ChatGoogleGenerativeAI. -/
structure LLMSpec where
  provider : Provider
  model : String
  key : String
deriving DecidableEq, Repr

/-- A loaded tool: its registry name and the extra configuration supplied at
load time (load_tools keyword arguments beyond the name list). -/
structure Tool where
  name : String
  config : List (String × String)
deriving DecidableEq, Repr

/-- load_tools called with a list of names and no further keyword arguments:
one tool per name, each with empty extra configuration. -/
def load_tools (names : List String) : List Tool :=
  names.map fun n => Tool.mk n []

/-- create_react_agent output: the chat client, the tool list and the pulled
prompt it was given. -/
structure Agent where
  llm : LLMSpec
  tools : List Tool
  promptName : String
deriving DecidableEq, Repr

/-- AgentExecutor output: the agent, the tool list and the verbose flag it
was given. -/
structure AgentExecutor where
  agent : Agent
  tools : List Tool
  verbose : Bool
deriving DecidableEq, Repr

/-- The llm expression of the Build Agent section: ChatOpenAI on the OpenAI
branch, ChatGoogleGenerativeAI otherwise, each reading the same model_name
and key variables the validation section read. -/
def buildLLMSpec (env : Env) : LLMSpec :=
  match env.provider with
  | Provider.openai => LLMSpec.mk Provider.openai env.model_name env.openai_key
  | Provider.gemini => LLMSpec.mk Provider.gemini env.model_name env.gemini_key

/-- The Build Agent section as a value: llm, prompt pulled from
hwchase17/react, tools loaded for ddg-search, ReAct agent over them, and the
executor over the same agent and the same tools with verbose=True. -/
def buildAgent (env : Env) : AgentExecutor :=
  AgentExecutor.mk
    (Agent.mk (buildLLMSpec env) (load_tools ["ddg-search"]) "hwchase17/react")
    (load_tools ["ddg-search"]) true

/-- The Build Agent section as events, in program order. -/
def buildTrace (env : Env) : List Event :=
  [Event.buildLLM (buildLLMSpec env).provider (buildLLMSpec env).model
     (buildLLMSpec env).key,
   Event.pullPrompt "hwchase17/react",
   Event.loadToolsEv ["ddg-search"],
   Event.createAgentEv,
   Event.createExecutorEv]

/-- The Main App section: the task text input is truthiness-guarded, so an
empty task emits nothing and never consults the executor; a non-empty task
runs the executor under a spinner inside a try, writing the output on
success and an error banner plus str(e) code block on any exception. -/
def dispatchTrace (env : Env) : List Event :=
  if env.task = "" then []
  else
    match env.executorRun env.task with
    | Except.ok out =>
        [Event.spinner "Working on it...", Event.invokeExecutor env.task,
         Event.successBanner "✅ Done", Event.write out]
    | Except.error e =>
        [Event.spinner "Working on it...", Event.invokeExecutor env.task,
         Event.errorBanner "❌ Agent failed", Event.codeBlock e]

/-- One full run of the script: validation, then, only when st.stop was not
reached, the Build Agent section and the Main App section. -/
def runScript (env : Env) : List Event :=
  if (validateTrace env).2 then (validateTrace env).1
  else (validateTrace env).1 ++ buildTrace env ++ dispatchTrace env

/-- The credential field the selected provider reads. -/
def currentKey (env : Env) : String :=
  match env.provider with
  | Provider.openai => env.openai_key
  | Provider.gemini => env.gemini_key

/-- The soft prompt shown by the empty-credential guard of each provider. -/
def missingPrompt : Provider → String
  | Provider.openai => "Enter your OpenAI API key to continue."
  | Provider.gemini => "Enter your Gemini API key to continue."

/-- The fixed trivial probe prompt of each provider. -/
def probePrompt : Provider → String
  | Provider.openai => "Hello"
  | Provider.gemini => "Hello Gemini"

/-- True on the events of the Build Agent section. -/
def Event.isBuildEvent : Event → Bool
  | Event.buildLLM _ _ _ => true
  | Event.pullPrompt _ => true
  | Event.loadToolsEv _ => true
  | Event.createAgentEv => true
  | Event.createExecutorEv => true
  | _ => false

/-- True on probe requests. -/
def Event.isProbe : Event → Bool
  | Event.probe _ _ _ _ => true
  | _ => false

/-- True on executor invocations. -/
def Event.isInvoke : Event → Bool
  | Event.invokeExecutor _ => true
  | _ => false

/-- True on raw-diagnostic code blocks. -/
def Event.isCodeBlock : Event → Bool
  | Event.codeBlock _ => true
  | _ => false

/-- True on rendered answer output: the success banner and the written
answer text of the dispatch section. -/
def Event.isAnswerOutput : Event → Bool
  | Event.successBanner _ => true
  | Event.write _ => true
  | _ => false

/-- env with the Gemini credential field replaced. -/
def setGeminiKey (env : Env) (k : String) : Env :=
  Env.mk env.provider env.openai_key k env.model_name
    env.openaiProbe env.geminiProbe env.task env.executorRun

/-- env with the OpenAI credential field replaced. -/
def setOpenaiKey (env : Env) (k : String) : Env :=
  Env.mk env.provider k env.gemini_key env.model_name
    env.openaiProbe env.geminiProbe env.task env.executorRun

/-- env with the executor oracle replaced. -/
def setExecutorRun (env : Env) (f : String → Except String String) : Env :=
  Env.mk env.provider env.openai_key env.gemini_key env.model_name
    env.openaiProbe env.geminiProbe env.task f

/-- Following the specification wording, for comparison with the code-side
buildLLMSpec: the provider, model identifier and credential triple that the
validation probe of a run validates — the selected provider, the chosen
model, and the credential field of the selected provider. -/
def specValidatedTriple (env : Env) : LLMSpec :=
  LLMSpec.mk env.provider env.model_name (currentKey env)

/-- The error taxonomy of the specification (section 7), restricted to the
categories the validation stage can surface. -/
inductive Category where
  | invalidCredential
  | quotaExceeded
  | transientProviderError
  | unknownError
deriving DecidableEq, Repr

/-- Reading of the literal error banners of the script as specification
categories: the two invalid-key banners and the model-not-found banner are
the invalid-credential(-equivalent) category, the two quota banners are
quota-exceeded, the OpenAI-error banner is the transient provider-error
category, and the two catch-all banners are unknown-error. -/
def bannerCategory : String → Option Category
  | "❌ Invalid OpenAI API key." => some Category.invalidCredential
  | "🚫 Quota exceeded or rate-limited." => some Category.quotaExceeded
  | "⚠️ OpenAI error occurred." => some Category.transientProviderError
  | "❌ Unknown error." => some Category.unknownError
  | "🚫 Gemini quota exceeded." => some Category.quotaExceeded
  | "❌ Invalid Gemini API key or model name." => some Category.invalidCredential
  | "❌ Gemini model not found." => some Category.invalidCredential
  | "❌ Gemini error." => some Category.unknownError
  | _ => none

/-- The category of the first error banner of a trace, if any: how the
outcome of a run is classified for the user. -/
def surfacedCategory (events : List Event) : Option Category :=
  (events.filterMap fun e =>
    match e with
    | Event.errorBanner m => bannerCategory m
    | _ => none).head?

/-- The first raw diagnostic (st.code block) of a trace, if any. -/
def surfacedDiag (events : List Event) : Option String :=
  (events.filterMap fun e =>
    match e with
    | Event.codeBlock m => some m
    | _ => none).head?

/-- Events of the OpenAI validation branch are probe requests or UI output,
never Build Agent events and never executor invocations. -/
theorem validateOpenAI_shape (key : String) (model : String)
    (probe : String → String → Except OpenAIExc Unit) :
    ((validateOpenAI key model probe).1.all
      fun e => !e.isBuildEvent && !e.isInvoke) = true := by
  unfold validateOpenAI
  by_cases hk : key = ""
  · simp [hk, Event.isBuildEvent, Event.isInvoke]
  · rw [if_neg hk]
    rcases hpr : probe model key with exc | u
    · cases exc <;>
        simp [openaiHandlers, Event.isBuildEvent, Event.isInvoke]
    · simp [Event.isBuildEvent, Event.isInvoke]

/-- Events of the Gemini validation branch are probe requests or UI output,
never Build Agent events and never executor invocations. -/
theorem validateGemini_shape (key : String) (model : String)
    (probe : String → String → Except GeminiExc Unit) :
    ((validateGemini key model probe).1.all
      fun e => !e.isBuildEvent && !e.isInvoke) = true := by
  unfold validateGemini
  by_cases hk : key = ""
  · simp [hk, Event.isBuildEvent, Event.isInvoke]
  · rw [if_neg hk]
    rcases hpr : probe model key with exc | u
    · cases exc <;>
        simp [geminiHandlers, Event.isBuildEvent, Event.isInvoke]
    · simp [Event.isBuildEvent, Event.isInvoke]

/-- Every event the validation section can emit is a probe request or UI
output, never a Build Agent event and never an executor invocation. -/
theorem validate_events_shape (env : Env) :
    ((validateTrace env).1.all fun e => !e.isBuildEvent && !e.isInvoke) = true := by
  cases hp : env.provider <;> simp only [validateTrace, hp]
  · exact validateOpenAI_shape env.openai_key env.model_name env.openaiProbe
  · exact validateGemini_shape env.gemini_key env.model_name env.geminiProbe

/-- C1: any validation stop (missing credential or any probe failure) halts
the run before the Build Agent section: the trace of a halted run contains no
chat-client build, no prompt pull, no tool load, no agent or executor
creation, and no executor invocation — the agent is neither built nor
invoked after a validation Failure. -/
theorem agent_built_only_after_validation (env : Env)
    (h : (validateTrace env).2 = true) :
    ((runScript env).all fun e => !e.isBuildEvent && !e.isInvoke) = true := by
  unfold runScript
  rw [h]
  simp only [if_true]
  exact validate_events_shape env

/-- Witness for C1: a concrete run whose probe raises an authentication
error is halted by validation and its trace has no build and no invocation. -/
theorem agent_built_only_after_validation_witness :
    (validateTrace
      (Env.mk Provider.openai "sk-invalid" "" "gpt-4o"
        (fun _ _ => Except.error (OpenAIExc.authentication "bad key"))
        (fun _ _ => Except.ok ())
        "What is the capital of France?"
        (fun _ => Except.ok "Paris"))).2 = true ∧
    ((runScript
      (Env.mk Provider.openai "sk-invalid" "" "gpt-4o"
        (fun _ _ => Except.error (OpenAIExc.authentication "bad key"))
        (fun _ _ => Except.ok ())
        "What is the capital of France?"
        (fun _ => Except.ok "Paris"))).all
      fun e => !e.isBuildEvent && !e.isInvoke) = true :=
  And.intro rfl
    (agent_built_only_after_validation
      (Env.mk Provider.openai "sk-invalid" "" "gpt-4o"
        (fun _ _ => Except.error (OpenAIExc.authentication "bad key"))
        (fun _ _ => Except.ok ())
        "What is the capital of France?"
        (fun _ => Except.ok "Paris")) rfl)

/-- C4: when the selected provider credential is empty, the run is exactly
the soft info prompt of that provider: no probe request is issued, no
executor is invoked, and no Failure category is surfaced. -/
theorem missing_credential_short_circuit (env : Env)
    (h : currentKey env = "") :
    runScript env = [Event.info (missingPrompt env.provider)] ∧
    ((runScript env).all fun e => !e.isProbe && !e.isInvoke) = true ∧
    surfacedCategory (runScript env) = none := by
  have hrun : runScript env = [Event.info (missingPrompt env.provider)] := by
    cases hp : env.provider
    · simp only [currentKey, hp] at h
      simp [runScript, validateTrace, hp, validateOpenAI, h, missingPrompt]
    · simp only [currentKey, hp] at h
      simp [runScript, validateTrace, hp, validateGemini, h, missingPrompt]
  refine ⟨hrun, ?_, ?_⟩
  · rw [hrun]
    simp [Event.isProbe, Event.isInvoke]
  · rw [hrun]
    simp [surfacedCategory]

/-- Witness for C4: a concrete Gemini run with an empty credential
short-circuits to the soft prompt. -/
theorem missing_credential_short_circuit_witness :
    currentKey
      (Env.mk Provider.gemini "" "" "models/gemini-1.5-flash"
        (fun _ _ => Except.ok ()) (fun _ _ => Except.ok ())
        "hi" (fun _ => Except.ok "ok")) = "" ∧
    (runScript
      (Env.mk Provider.gemini "" "" "models/gemini-1.5-flash"
        (fun _ _ => Except.ok ()) (fun _ _ => Except.ok ())
        "hi" (fun _ => Except.ok "ok")) =
      [Event.info (missingPrompt Provider.gemini)] ∧
    ((runScript
      (Env.mk Provider.gemini "" "" "models/gemini-1.5-flash"
        (fun _ _ => Except.ok ()) (fun _ _ => Except.ok ())
        "hi" (fun _ => Except.ok "ok"))).all
        fun e => !e.isProbe && !e.isInvoke) = true ∧
    surfacedCategory (runScript
      (Env.mk Provider.gemini "" "" "models/gemini-1.5-flash"
        (fun _ _ => Except.ok ()) (fun _ _ => Except.ok ())
        "hi" (fun _ => Except.ok "ok"))) = none) :=
  And.intro rfl
    (missing_credential_short_circuit
      (Env.mk Provider.gemini "" "" "models/gemini-1.5-flash"
        (fun _ _ => Except.ok ()) (fun _ _ => Except.ok ())
        "hi" (fun _ => Except.ok "ok")) rfl)

/-- C5: a quota-exceeded probe exception (RateLimitError on the OpenAI
branch, ResourceExhausted on the Gemini branch) yields exactly the quota
banner followed by a code block holding the exception diagnostic verbatim,
and the surfaced diagnostic equals that diagnostic exactly. -/
theorem quota_diag_verbatim (key : String) (model : String) (m : String)
    (hk : key ≠ "") :
    (validateOpenAI key model
        (fun _ _ => Except.error (OpenAIExc.rateLimit m))).1 =
      [Event.probe Provider.openai model key "Hello",
       Event.errorBanner "🚫 Quota exceeded or rate-limited.",
       Event.codeBlock m] ∧
    surfacedDiag (validateOpenAI key model
        (fun _ _ => Except.error (OpenAIExc.rateLimit m))).1 = some m ∧
    (validateGemini key model
        (fun _ _ => Except.error (GeminiExc.resourceExhausted m))).1 =
      [Event.probe Provider.gemini model key "Hello Gemini",
       Event.errorBanner "🚫 Gemini quota exceeded.",
       Event.codeBlock m] ∧
    surfacedDiag (validateGemini key model
        (fun _ _ => Except.error (GeminiExc.resourceExhausted m))).1 = some m := by
  refine ⟨?_, ?_, ?_, ?_⟩ <;>
    simp [validateOpenAI, validateGemini, hk, openaiHandlers, geminiHandlers,
      surfacedDiag]

/-- Witness for C5: a concrete quota failure with diagnostic text preserved
verbatim on both branches. -/
theorem quota_diag_verbatim_witness :
    ("sk-x" : String) ≠ "" ∧
    ((validateOpenAI "sk-x" "gpt-4o"
        (fun _ _ => Except.error (OpenAIExc.rateLimit "quota hit"))).1 =
      [Event.probe Provider.openai "gpt-4o" "sk-x" "Hello",
       Event.errorBanner "🚫 Quota exceeded or rate-limited.",
       Event.codeBlock "quota hit"] ∧
    surfacedDiag (validateOpenAI "sk-x" "gpt-4o"
        (fun _ _ => Except.error (OpenAIExc.rateLimit "quota hit"))).1 =
      some "quota hit" ∧
    (validateGemini "sk-x" "gpt-4o"
        (fun _ _ => Except.error (GeminiExc.resourceExhausted "quota hit"))).1 =
      [Event.probe Provider.gemini "gpt-4o" "sk-x" "Hello Gemini",
       Event.errorBanner "🚫 Gemini quota exceeded.",
       Event.codeBlock "quota hit"] ∧
    surfacedDiag (validateGemini "sk-x" "gpt-4o"
        (fun _ _ => Except.error (GeminiExc.resourceExhausted "quota hit"))).1 =
      some "quota hit") :=
  And.intro (by decide)
    (quota_diag_verbatim "sk-x" "gpt-4o" "quota hit" (by decide))

/-- Evaluation of the banner reading on the OpenAI invalid-key banner. -/
theorem bannerCategory_openai_invalid :
    bannerCategory "❌ Invalid OpenAI API key." = some Category.invalidCredential := by
  decide

/-- Evaluation of the banner reading on the OpenAI quota banner. -/
theorem bannerCategory_openai_quota :
    bannerCategory "🚫 Quota exceeded or rate-limited." = some Category.quotaExceeded := by
  decide

/-- Evaluation of the banner reading on the OpenAI library-error banner. -/
theorem bannerCategory_openai_err :
    bannerCategory "⚠️ OpenAI error occurred." = some Category.transientProviderError := by
  decide

/-- Evaluation of the banner reading on the OpenAI catch-all banner. -/
theorem bannerCategory_openai_unknown :
    bannerCategory "❌ Unknown error." = some Category.unknownError := by
  decide

/-- Evaluation of the banner reading on the Gemini quota banner. -/
theorem bannerCategory_gemini_quota :
    bannerCategory "🚫 Gemini quota exceeded." = some Category.quotaExceeded := by
  decide

/-- Evaluation of the banner reading on the Gemini invalid-key banner. -/
theorem bannerCategory_gemini_invalid :
    bannerCategory "❌ Invalid Gemini API key or model name." =
      some Category.invalidCredential := by
  decide

/-- Evaluation of the banner reading on the Gemini not-found banner. -/
theorem bannerCategory_gemini_notfound :
    bannerCategory "❌ Gemini model not found." = some Category.invalidCredential := by
  decide

/-- Evaluation of the banner reading on the Gemini catch-all banner. -/
theorem bannerCategory_gemini_unknown :
    bannerCategory "❌ Gemini error." = some Category.unknownError := by
  decide

/-- C2: the handler chains classify each probe exception as the policy of
the specification states, per provider. Authentication failures surface the
invalid-credential category; rate-limit and quota exceptions surface the
quota-exceeded category with the diagnostic preserved; the Gemini-specific
invalid-argument and model-not-found exceptions surface invalid-credential
equivalent categories; an exception matched only by the final catch-all of
either branch surfaces the unknown-error category with its diagnostic
preserved. An OpenAI library error that is neither authentication nor rate
limit is the transient provider-error category of the specification
taxonomy, also with its diagnostic preserved. -/
theorem classification_policy (m : String) (key : String) (model : String)
    (hk : key ≠ "") :
    surfacedCategory (validateOpenAI key model
        (fun _ _ => Except.error (OpenAIExc.authentication m))).1 =
      some Category.invalidCredential ∧
    surfacedCategory (validateOpenAI key model
        (fun _ _ => Except.error (OpenAIExc.rateLimit m))).1 =
      some Category.quotaExceeded ∧
    surfacedDiag (validateOpenAI key model
        (fun _ _ => Except.error (OpenAIExc.rateLimit m))).1 = some m ∧
    surfacedCategory (validateOpenAI key model
        (fun _ _ => Except.error (OpenAIExc.openAIError m))).1 =
      some Category.transientProviderError ∧
    surfacedDiag (validateOpenAI key model
        (fun _ _ => Except.error (OpenAIExc.openAIError m))).1 = some m ∧
    surfacedCategory (validateOpenAI key model
        (fun _ _ => Except.error (OpenAIExc.otherExc m))).1 =
      some Category.unknownError ∧
    surfacedDiag (validateOpenAI key model
        (fun _ _ => Except.error (OpenAIExc.otherExc m))).1 = some m ∧
    surfacedCategory (validateGemini key model
        (fun _ _ => Except.error (GeminiExc.invalidArgument m))).1 =
      some Category.invalidCredential ∧
    surfacedCategory (validateGemini key model
        (fun _ _ => Except.error (GeminiExc.notFound m))).1 =
      some Category.invalidCredential ∧
    surfacedCategory (validateGemini key model
        (fun _ _ => Except.error (GeminiExc.resourceExhausted m))).1 =
      some Category.quotaExceeded ∧
    surfacedDiag (validateGemini key model
        (fun _ _ => Except.error (GeminiExc.resourceExhausted m))).1 = some m ∧
    surfacedCategory (validateGemini key model
        (fun _ _ => Except.error (GeminiExc.otherExc m))).1 =
      some Category.unknownError ∧
    surfacedDiag (validateGemini key model
        (fun _ _ => Except.error (GeminiExc.otherExc m))).1 = some m := by
  refine ⟨?_, ?_, ?_, ?_, ?_, ?_, ?_, ?_, ?_, ?_, ?_, ?_, ?_⟩ <;>
    simp [validateOpenAI, validateGemini, hk, openaiHandlers, geminiHandlers,
      surfacedCategory, surfacedDiag,
      bannerCategory_openai_invalid, bannerCategory_openai_quota,
      bannerCategory_openai_err, bannerCategory_openai_unknown,
      bannerCategory_gemini_quota, bannerCategory_gemini_invalid,
      bannerCategory_gemini_notfound, bannerCategory_gemini_unknown]

/-- Witness for C2: the classification holds at a concrete key, model and
diagnostic; shown here on the authentication conjunct. -/
theorem classification_policy_witness :
    ("sk-x" : String) ≠ "" ∧
    surfacedCategory (validateOpenAI "sk-x" "gpt-4o"
        (fun _ _ => Except.error (OpenAIExc.authentication "diag"))).1 =
      some Category.invalidCredential :=
  And.intro (by decide)
    (classification_policy "diag" "sk-x" "gpt-4o" (by decide)).1

/-- Counterexample for C3: an authentication failure — a validation failure
category other than the missing-credential prompt — surfaces only the short
invalid-credential label: the run contains no code block at all, so the raw
diagnostic text of the underlying exception is not included in the surfaced
message, contradicting the claim. -/
theorem label_plus_diag_cex :
    surfacedCategory (validateOpenAI "sk-invalid" "gpt-4o"
        (fun _ _ => Except.error
          (OpenAIExc.authentication "Incorrect API key provided"))).1 =
      some Category.invalidCredential ∧
    surfacedDiag (validateOpenAI "sk-invalid" "gpt-4o"
        (fun _ _ => Except.error
          (OpenAIExc.authentication "Incorrect API key provided"))).1 = none ∧
    ((validateOpenAI "sk-invalid" "gpt-4o"
        (fun _ _ => Except.error
          (OpenAIExc.authentication "Incorrect API key provided"))).1.all
      fun e => !e.isCodeBlock) = true := by
  decide

/-- C3 amended: every validation failure other than the missing-credential
prompt surfaces a short category label; the quota-exceeded, transient
provider-error and unknown-error failures additionally include the raw
diagnostic text verbatim, while the invalid-credential failures (OpenAI
authentication, Gemini invalid-argument, Gemini not-found) surface only the
label and no diagnostic block. -/
theorem label_plus_diag_amended (m : String) (key : String) (model : String)
    (hk : key ≠ "") :
    surfacedCategory (validateOpenAI key model
        (fun _ _ => Except.error (OpenAIExc.authentication m))).1 =
      some Category.invalidCredential ∧
    ((validateOpenAI key model
        (fun _ _ => Except.error (OpenAIExc.authentication m))).1.all
      fun e => !e.isCodeBlock) = true ∧
    surfacedCategory (validateGemini key model
        (fun _ _ => Except.error (GeminiExc.invalidArgument m))).1 =
      some Category.invalidCredential ∧
    ((validateGemini key model
        (fun _ _ => Except.error (GeminiExc.invalidArgument m))).1.all
      fun e => !e.isCodeBlock) = true ∧
    surfacedCategory (validateGemini key model
        (fun _ _ => Except.error (GeminiExc.notFound m))).1 =
      some Category.invalidCredential ∧
    ((validateGemini key model
        (fun _ _ => Except.error (GeminiExc.notFound m))).1.all
      fun e => !e.isCodeBlock) = true ∧
    surfacedCategory (validateOpenAI key model
        (fun _ _ => Except.error (OpenAIExc.rateLimit m))).1 =
      some Category.quotaExceeded ∧
    surfacedDiag (validateOpenAI key model
        (fun _ _ => Except.error (OpenAIExc.rateLimit m))).1 = some m ∧
    surfacedCategory (validateOpenAI key model
        (fun _ _ => Except.error (OpenAIExc.openAIError m))).1 =
      some Category.transientProviderError ∧
    surfacedDiag (validateOpenAI key model
        (fun _ _ => Except.error (OpenAIExc.openAIError m))).1 = some m ∧
    surfacedCategory (validateOpenAI key model
        (fun _ _ => Except.error (OpenAIExc.otherExc m))).1 =
      some Category.unknownError ∧
    surfacedDiag (validateOpenAI key model
        (fun _ _ => Except.error (OpenAIExc.otherExc m))).1 = some m ∧
    surfacedCategory (validateGemini key model
        (fun _ _ => Except.error (GeminiExc.resourceExhausted m))).1 =
      some Category.quotaExceeded ∧
    surfacedDiag (validateGemini key model
        (fun _ _ => Except.error (GeminiExc.resourceExhausted m))).1 = some m ∧
    surfacedCategory (validateGemini key model
        (fun _ _ => Except.error (GeminiExc.otherExc m))).1 =
      some Category.unknownError ∧
    surfacedDiag (validateGemini key model
        (fun _ _ => Except.error (GeminiExc.otherExc m))).1 = some m := by
  refine ⟨?_, ?_, ?_, ?_, ?_, ?_, ?_, ?_, ?_, ?_, ?_, ?_, ?_, ?_, ?_, ?_⟩ <;>
    simp [validateOpenAI, validateGemini, hk, openaiHandlers, geminiHandlers,
      surfacedCategory, surfacedDiag, Event.isCodeBlock,
      bannerCategory_openai_invalid, bannerCategory_openai_quota,
      bannerCategory_openai_err, bannerCategory_openai_unknown,
      bannerCategory_gemini_quota, bannerCategory_gemini_invalid,
      bannerCategory_gemini_notfound, bannerCategory_gemini_unknown]

/-- Witness for the amended C3: the label-only invalid-credential surfacing
holds at a concrete key, model and diagnostic. -/
theorem label_plus_diag_amended_witness :
    ("sk-x" : String) ≠ "" ∧
    ((validateOpenAI "sk-x" "gpt-4o"
        (fun _ _ => Except.error (OpenAIExc.authentication "diag"))).1.all
      fun e => !e.isCodeBlock) = true :=
  And.intro (by decide)
    (label_plus_diag_amended "diag" "sk-x" "gpt-4o" (by decide)).2.1

/-- An empty selected credential makes validation stop at the soft prompt. -/
theorem missing_key_halts (env : Env) (h : currentKey env = "") :
    (validateTrace env).2 = true := by
  cases hp : env.provider
  · simp only [currentKey, hp] at h
    simp [validateTrace, hp, validateOpenAI, h]
  · simp only [currentKey, hp] at h
    simp [validateTrace, hp, validateGemini, h]

/-- The validation trace never contains an executor invocation. -/
theorem validate_no_invoke (env : Env) :
    ((validateTrace env).1.all fun e => !e.isInvoke) = true := by
  have h := validate_events_shape env
  rw [List.all_eq_true] at h ⊢
  intro a ha
  have h2 := h a ha
  simp only [Bool.and_eq_true] at h2
  exact h2.2

/-- The Build Agent events contain no executor invocation. -/
theorem buildTrace_no_invoke (env : Env) :
    ((buildTrace env).all fun e => !e.isInvoke) = true := by
  simp [buildTrace, Event.isInvoke]

/-- C6: an empty task string is rejected by the truthiness guard before the
executor is consulted: the dispatch section emits nothing, the whole run
contains no executor invocation, and the run is unchanged under any
replacement of the executor oracle — no task-related traffic can occur. -/
theorem empty_task_no_dispatch (env : Env) (h : env.task = "") :
    dispatchTrace env = [] ∧
    ((runScript env).all fun e => !e.isInvoke) = true ∧
    ∀ f, runScript (setExecutorRun env f) = runScript env := by
  have hd : dispatchTrace env = [] := by simp [dispatchTrace, h]
  refine ⟨hd, ?_, ?_⟩
  · unfold runScript
    by_cases hh : (validateTrace env).2 = true
    · rw [if_pos hh]
      exact validate_no_invoke env
    · rw [if_neg hh]
      rw [List.all_append, List.all_append, hd]
      simp [validate_no_invoke env, buildTrace_no_invoke env]
  · intro f
    have hv : validateTrace (setExecutorRun env f) = validateTrace env := rfl
    have hb : buildTrace (setExecutorRun env f) = buildTrace env := rfl
    have hdf : dispatchTrace (setExecutorRun env f) = dispatchTrace env := by
      simp [dispatchTrace, setExecutorRun, h]
    unfold runScript
    rw [hv, hb, hdf]

/-- Witness for C6: a concrete run with an empty task invokes no executor. -/
theorem empty_task_no_dispatch_witness :
    (Env.mk Provider.openai "sk-ok" "" "gpt-4o"
      (fun _ _ => Except.ok ()) (fun _ _ => Except.ok ())
      "" (fun _ => Except.ok "ans")).task = "" ∧
    ((runScript
      (Env.mk Provider.openai "sk-ok" "" "gpt-4o"
        (fun _ _ => Except.ok ()) (fun _ _ => Except.ok ())
        "" (fun _ => Except.ok "ans"))).all fun e => !e.isInvoke) = true :=
  And.intro rfl
    (empty_task_no_dispatch
      (Env.mk Provider.openai "sk-ok" "" "gpt-4o"
        (fun _ _ => Except.ok ()) (fun _ _ => Except.ok ())
        "" (fun _ => Except.ok "ans")) rfl).2.1

/-- C7: on a non-empty task whose executor invocation raises, the dispatch
section emits exactly one invocation followed by the failure banner and a
code block holding the exception text verbatim: no retry and no answer
output (no success banner, no written answer). -/
theorem dispatch_exception_failure (env : Env) (m : String)
    (h1 : env.task ≠ "") (h2 : env.executorRun env.task = Except.error m) :
    dispatchTrace env =
      [Event.spinner "Working on it...", Event.invokeExecutor env.task,
       Event.errorBanner "❌ Agent failed", Event.codeBlock m] ∧
    (dispatchTrace env).countP Event.isInvoke = 1 ∧
    ((dispatchTrace env).all fun e => !e.isAnswerOutput) = true := by
  have hd : dispatchTrace env =
      [Event.spinner "Working on it...", Event.invokeExecutor env.task,
       Event.errorBanner "❌ Agent failed", Event.codeBlock m] := by
    unfold dispatchTrace
    rw [if_neg h1, h2]
  refine ⟨hd, ?_, ?_⟩ <;> rw [hd]
  · simp [List.countP_cons, Event.isInvoke]
  · simp [Event.isAnswerOutput]

/-- Witness for C7: a concrete failing dispatch produces the failure trace. -/
theorem dispatch_exception_failure_witness :
    (Env.mk Provider.openai "sk-ok" "" "gpt-4o"
      (fun _ _ => Except.ok ()) (fun _ _ => Except.ok ())
      "find it" (fun _ => Except.error "boom")).task ≠ "" ∧
    dispatchTrace
      (Env.mk Provider.openai "sk-ok" "" "gpt-4o"
        (fun _ _ => Except.ok ()) (fun _ _ => Except.ok ())
        "find it" (fun _ => Except.error "boom")) =
      [Event.spinner "Working on it...", Event.invokeExecutor "find it",
       Event.errorBanner "❌ Agent failed", Event.codeBlock "boom"] :=
  And.intro (by decide)
    (dispatch_exception_failure
      (Env.mk Provider.openai "sk-ok" "" "gpt-4o"
        (fun _ _ => Except.ok ()) (fun _ _ => Except.ok ())
        "find it" (fun _ => Except.error "boom")) "boom" (by decide) rfl).1

/-- The OpenAI validation branch with a non-empty key issues exactly this
one probe, whatever the probe outcome. -/
theorem validateOpenAI_filter_probe (key : String) (model : String)
    (probe : String → String → Except OpenAIExc Unit) (hk : key ≠ "") :
    (validateOpenAI key model probe).1.filter Event.isProbe
      = [Event.probe Provider.openai model key "Hello"] := by
  unfold validateOpenAI
  rw [if_neg hk]
  rcases hpr : probe model key with exc | u
  · cases exc <;> simp [openaiHandlers, Event.isProbe]
  · simp [Event.isProbe]

/-- The Gemini validation branch with a non-empty key issues exactly this
one probe, whatever the probe outcome. -/
theorem validateGemini_filter_probe (key : String) (model : String)
    (probe : String → String → Except GeminiExc Unit) (hk : key ≠ "") :
    (validateGemini key model probe).1.filter Event.isProbe
      = [Event.probe Provider.gemini model key "Hello Gemini"] := by
  unfold validateGemini
  rw [if_neg hk]
  rcases hpr : probe model key with exc | u
  · cases exc <;> simp [geminiHandlers, Event.isProbe]
  · simp [Event.isProbe]

/-- The Build Agent events contain no probe request. -/
theorem buildTrace_no_probe (env : Env) :
    (buildTrace env).filter Event.isProbe = [] := by
  simp [buildTrace, Event.isProbe]

/-- The dispatch events contain no probe request. -/
theorem dispatchTrace_no_probe (env : Env) :
    (dispatchTrace env).filter Event.isProbe = [] := by
  unfold dispatchTrace
  by_cases h : env.task = ""
  · rw [if_pos h]
    rfl
  · rw [if_neg h]
    rcases hr : env.executorRun env.task with e | out <;> simp [Event.isProbe]

/-- A run with a non-empty selected credential contains exactly the one
probe of the validation section: selected provider, chosen model, given
credential, fixed prompt. -/
theorem runScript_probe_filter (env : Env) (hk : currentKey env ≠ "") :
    (runScript env).filter Event.isProbe
      = [Event.probe env.provider env.model_name (currentKey env)
          (probePrompt env.provider)] := by
  have hv : (validateTrace env).1.filter Event.isProbe
      = [Event.probe env.provider env.model_name (currentKey env)
          (probePrompt env.provider)] := by
    cases hp : env.provider
    · simp only [validateTrace, hp, currentKey, probePrompt]
      exact validateOpenAI_filter_probe _ _ _ (by simpa [currentKey, hp] using hk)
    · simp only [validateTrace, hp, currentKey, probePrompt]
      exact validateGemini_filter_probe _ _ _ (by simpa [currentKey, hp] using hk)
  unfold runScript
  by_cases hh : (validateTrace env).2 = true
  · rw [if_pos hh]
    exact hv
  · rw [if_neg hh]
    rw [List.filter_append, List.filter_append, hv, buildTrace_no_probe,
      dispatchTrace_no_probe]
    simp

/-- C8: for every provider and every non-empty selected credential, the run
issues exactly one probe request — to the selected provider with the chosen
model, the given credential and the fixed trivial prompt of that provider —
and never a second attempt, regardless of the probe outcome. -/
theorem single_probe_no_retry (env : Env) (hk : currentKey env ≠ "") :
    (runScript env).filter Event.isProbe
      = [Event.probe env.provider env.model_name (currentKey env)
          (probePrompt env.provider)] ∧
    (runScript env).countP Event.isProbe = 1 := by
  have h := runScript_probe_filter env hk
  refine ⟨h, ?_⟩
  rw [List.countP_eq_length_filter, h]
  rfl

/-- Witness for C8: a concrete run whose probe is rate-limited still issues
exactly one probe. -/
theorem single_probe_no_retry_witness :
    currentKey
      (Env.mk Provider.gemini "" "AIza-x" "models/gemini-1.5-flash"
        (fun _ _ => Except.ok ())
        (fun _ _ => Except.error (GeminiExc.resourceExhausted "429"))
        "q" (fun _ => Except.ok "a")) ≠ "" ∧
    (runScript
      (Env.mk Provider.gemini "" "AIza-x" "models/gemini-1.5-flash"
        (fun _ _ => Except.ok ())
        (fun _ _ => Except.error (GeminiExc.resourceExhausted "429"))
        "q" (fun _ => Except.ok "a"))).countP Event.isProbe = 1 :=
  And.intro (by decide)
    (single_probe_no_retry
      (Env.mk Provider.gemini "" "AIza-x" "models/gemini-1.5-flash"
        (fun _ _ => Except.ok ())
        (fun _ _ => Except.error (GeminiExc.resourceExhausted "429"))
        "q" (fun _ => Except.ok "a")) (by decide)).2

/-- C9: the constructed executor carries exactly one tool — the ddg-search
web-search tool loaded with no additional configuration — and the very same
single-element tool list is attached to the agent and to the executor. -/
theorem single_search_tool (env : Env) :
    (buildAgent env).tools = [Tool.mk "ddg-search" []] ∧
    (buildAgent env).agent.tools = (buildAgent env).tools ∧
    (buildAgent env).tools.length = 1 :=
  ⟨rfl, rfl, rfl⟩

/-- C10: the chat client of the Build Agent section is configured with
exactly the provider, model and credential triple the validation probe ran
with — the probe event of a successful run carries the same triple the
built agent holds — and the credential field of the unselected provider
never influences the run or the built agent. -/
theorem build_uses_validated_triple (env : Env)
    (h : (validateTrace env).2 = false) :
    buildLLMSpec env = specValidatedTriple env ∧
    (buildAgent env).agent.llm = specValidatedTriple env ∧
    (runScript env).filter Event.isProbe
      = [Event.probe (specValidatedTriple env).provider
          (specValidatedTriple env).model (specValidatedTriple env).key
          (probePrompt env.provider)] ∧
    (env.provider = Provider.openai →
      ∀ k, runScript (setGeminiKey env k) = runScript env ∧
        buildAgent (setGeminiKey env k) = buildAgent env) ∧
    (env.provider = Provider.gemini →
      ∀ k, runScript (setOpenaiKey env k) = runScript env ∧
        buildAgent (setOpenaiKey env k) = buildAgent env) := by
  have hk : currentKey env ≠ "" := by
    intro contra
    have hh := missing_key_halts env contra
    rw [h] at hh
    cases hh
  have hbs : buildLLMSpec env = specValidatedTriple env := by
    cases hp : env.provider <;>
      simp [buildLLMSpec, specValidatedTriple, currentKey, hp]
  refine ⟨hbs, hbs, ?_, ?_, ?_⟩
  · exact runScript_probe_filter env hk
  · intro hp k
    have hv : validateTrace (setGeminiKey env k) = validateTrace env := by
      simp [validateTrace, setGeminiKey, hp]
    have hb : buildTrace (setGeminiKey env k) = buildTrace env := by
      simp [buildTrace, buildLLMSpec, setGeminiKey, hp]
    have hd : dispatchTrace (setGeminiKey env k) = dispatchTrace env := rfl
    constructor
    · unfold runScript
      rw [hv, hb, hd]
    · simp [buildAgent, buildLLMSpec, setGeminiKey, hp]
  · intro hp k
    have hv : validateTrace (setOpenaiKey env k) = validateTrace env := by
      simp [validateTrace, setOpenaiKey, hp]
    have hb : buildTrace (setOpenaiKey env k) = buildTrace env := by
      simp [buildTrace, buildLLMSpec, setOpenaiKey, hp]
    have hd : dispatchTrace (setOpenaiKey env k) = dispatchTrace env := rfl
    constructor
    · unfold runScript
      rw [hv, hb, hd]
    · simp [buildAgent, buildLLMSpec, setOpenaiKey, hp]

/-- Witness for C10: at a concrete successful run the built client triple is
the validated triple. -/
theorem build_uses_validated_triple_witness :
    (validateTrace
      (Env.mk Provider.openai "sk-ok" "" "gpt-4o"
        (fun _ _ => Except.ok ()) (fun _ _ => Except.ok ())
        "q" (fun _ => Except.ok "a"))).2 = false ∧
    buildLLMSpec
      (Env.mk Provider.openai "sk-ok" "" "gpt-4o"
        (fun _ _ => Except.ok ()) (fun _ _ => Except.ok ())
        "q" (fun _ => Except.ok "a")) =
      specValidatedTriple
        (Env.mk Provider.openai "sk-ok" "" "gpt-4o"
          (fun _ _ => Except.ok ()) (fun _ _ => Except.ok ())
          "q" (fun _ => Except.ok "a")) :=
  And.intro rfl
    (build_uses_validated_triple
      (Env.mk Provider.openai "sk-ok" "" "gpt-4o"
        (fun _ _ => Except.ok ()) (fun _ _ => Except.ok ())
        "q" (fun _ => Except.ok "a")) rfl).1

end Answerly
